import Mathlib

/-
Shallow embedding of the WebSocket connection manager of `ununc/ws-front`
(src/src/components/useWebSocket.ts) together with the wire-format types
(src/src/components/types.ts).

The hook owns: a boolean `isConnected` React state, a socket reference
`wsRef`, a pending-reconnect timer `reconnectTimeoutRef`, an attempt
counter `reconnectAttemptsRef` (cap 5), and a mutable message-handler
slot `messageHandlerRef`.  We model the manager as a record `MgrState`;
sockets are identified by the order of their creation (`nextId`), and the
ready-state of every socket the manager ever constructed is kept in a
table `sockets : Nat → Option ReadyState` (the `WebSocket.readyState`
field of the platform object).  `JSON.parse` is platform code, not code
of this repository: an inbound frame is therefore modelled as
`Option Json` — `some j` when `JSON.parse (event.data)` returns the
value `j`, `none` when it throws.  `console.log` / `console.error`
calls are external effects with no bearing on manager state and are not
modelled.  Two ghost history fields record the observable interactions:
`delays` lists the timeouts passed to `setTimeout` by the close reaction,
and `handlerCalls` lists every invocation of the current message handler
together with the value it received.  The fired `setTimeout` handle that
the source leaves in `reconnectTimeoutRef` is observationally equivalent
to clearing the slot, because the only reader of the slot is `cleanup`'s
`clearTimeout`; the model therefore consumes the timer when it fires.
-/

namespace WS

/-- `WebSocket.readyState` values of the platform socket object. -/
inductive ReadyState where
  | CONNECTING
  | OPEN
  | CLOSING
  | CLOSED
  deriving DecidableEq

/-- JSON values, the possible results of `JSON.parse` on a text frame.
Numbers are modelled as integers (the payloads in types.ts are ids,
coordinates and timestamps). -/
inductive Json where
  | null
  | bool (b : Bool)
  | num (n : Int)
  | str (s : String)
  | arr (elems : List Json)
  | obj (fields : List (String × Json))

/-- types.ts: `Item` — record with numeric id and display name. -/
structure Item where
  id : Int
  name : String

/-- types.ts: `Position` — x,y numeric coordinates. -/
structure Position where
  x : Int
  y : Int

/-- types.ts: `Section` — id, title and an item list. -/
structure Section where
  id : Int
  title : String
  items : List Item

/-- types.ts: `AppState` — sections, items, last-updated timestamp. -/
structure AppState where
  sections : List Section
  items : List Item
  lastUpdated : Int

/-- types.ts: `WebSocketMessage` — the tagged union of application events. -/
inductive WebSocketMessage where
  | DRAG_UPDATE (item : Item) (position : Position)
  | DROP_UPDATE (sections : List Section) (items : List Item)
  | DRAG_END
  | INIT_STATE (state : AppState)

/-- Reading a JSON value as a types.ts `Item`. -/
def decodeItem : Json → Option Item
  | Json.obj fs =>
      match fs.lookup "id", fs.lookup "name" with
      | some (Json.num i), some (Json.str n) => some { id := i, name := n }
      | _, _ => none
  | _ => none

/-- Reading a JSON value as a list of `Item`s. -/
def decodeItems : Json → Option (List Item)
  | Json.arr xs => xs.mapM decodeItem
  | _ => none

/-- Reading a JSON value as a types.ts `Position`. -/
def decodePosition : Json → Option Position
  | Json.obj fs =>
      match fs.lookup "x", fs.lookup "y" with
      | some (Json.num a), some (Json.num b) => some { x := a, y := b }
      | _, _ => none
  | _ => none

/-- Reading a JSON value as a types.ts `Section`. -/
def decodeSection : Json → Option Section
  | Json.obj fs =>
      match fs.lookup "id", fs.lookup "title", (fs.lookup "items").bind decodeItems with
      | some (Json.num i), some (Json.str t), some its =>
          some { id := i, title := t, items := its }
      | _, _, _ => none
  | _ => none

/-- Reading a JSON value as a list of `Section`s. -/
def decodeSections : Json → Option (List Section)
  | Json.arr xs => xs.mapM decodeSection
  | _ => none

/-- Reading a JSON value as a types.ts `AppState`. -/
def decodeAppState : Json → Option AppState
  | Json.obj fs =>
      match (fs.lookup "sections").bind decodeSections,
            (fs.lookup "items").bind decodeItems,
            fs.lookup "lastUpdated" with
      | some secs, some its, some (Json.num ts) =>
          some { sections := secs, items := its, lastUpdated := ts }
      | _, _, _ => none
  | _ => none

/-- Whether a JSON value is a well-formed types.ts `WebSocketMessage`
(the structured message format): the tagged union keyed by `type`. -/
def decodeWebSocketMessage : Json → Option WebSocketMessage
  | Json.obj fs =>
      match fs.lookup "type" with
      | some (Json.str "DRAG_UPDATE") =>
          match (fs.lookup "item").bind decodeItem,
                (fs.lookup "position").bind decodePosition with
          | some it, some p => some (WebSocketMessage.DRAG_UPDATE it p)
          | _, _ => none
      | some (Json.str "DROP_UPDATE") =>
          match (fs.lookup "sections").bind decodeSections,
                (fs.lookup "items").bind decodeItems with
          | some secs, some its => some (WebSocketMessage.DROP_UPDATE secs its)
          | _, _ => none
      | some (Json.str "DRAG_END") => some WebSocketMessage.DRAG_END
      | some (Json.str "INIT_STATE") =>
          match (fs.lookup "state").bind decodeAppState with
          | some st => some (WebSocketMessage.INIT_STATE st)
          | _ => none
      | _ => none
  | _ => none

/-- The manager state of `useWebSocket` (see the module comment). -/
structure MgrState where
  /-- The `isConnected` React state. -/
  isConnected : Bool
  /-- `wsRef.current`: the id of the referenced socket, if any. -/
  wsRef : Option Nat
  /-- `readyState` of every socket this manager created, by id. -/
  sockets : Nat → Option ReadyState
  /-- `reconnectTimeoutRef.current`: the pending timer and its delay (ms). -/
  reconnectTimeout : Option Nat
  /-- `reconnectAttemptsRef.current`. -/
  reconnectAttempts : Nat
  /-- Id the next constructed socket will get. -/
  nextId : Nat
  /-- `messageHandlerRef.current`: the identity of the current handler. -/
  messageHandler : Nat
  /-- Ghost history: every message-handler invocation (handler, value). -/
  handlerCalls : List (Nat × Json)
  /-- Ghost history: every delay passed to `setTimeout` by the close reaction. -/
  delays : List Nat

/-- `const maxReconnectAttempts = 5`. -/
def maxReconnectAttempts : Nat := 5

/-- Overwrite the ready-state of socket `sid` in the table. -/
def setSock (f : Nat → Option ReadyState) (sid : Nat) (rs : ReadyState) :
    Nat → Option ReadyState :=
  fun n => if n = sid then some rs else f n

/-- Effect of `socket.close(...)` on a socket's ready-state: a connecting or
open socket starts closing; a closing or closed one is unaffected. -/
def applyClose : ReadyState → ReadyState
  | ReadyState.CONNECTING => ReadyState.CLOSING
  | ReadyState.OPEN => ReadyState.CLOSING
  | rs => rs

/-- Start the closing handshake of socket `sid` in the table. -/
def closeSock (f : Nat → Option ReadyState) (sid : Nat) :
    Nat → Option ReadyState :=
  fun n => if n = sid then (f n).map applyClose else f n

/-- `wsRef.current?.readyState`. -/
def refReadyState (s : MgrState) : Option ReadyState :=
  s.wsRef.bind s.sockets

/-- `cleanup`: clear the pending timer if one exists; if a socket is
referenced, close it with code 1000 and clear the reference. -/
def cleanup (s : MgrState) : MgrState :=
  match s.wsRef with
  | none => { s with reconnectTimeout := none }
  | some sid =>
      { s with reconnectTimeout := none,
               sockets := closeSock s.sockets sid,
               wsRef := none }

/-- `connect`: a no-op when the referenced socket is OPEN or CONNECTING, or
when the attempt counter has reached the maximum; otherwise construct a new
socket (`ok` tells whether `new WebSocket(url)` succeeds — on a synchronous
throw the exception is caught and nothing changes). -/
def connect (ok : Bool) (s : MgrState) : MgrState :=
  if refReadyState s = some ReadyState.OPEN ∨
     refReadyState s = some ReadyState.CONNECTING then
    s
  else if maxReconnectAttempts ≤ s.reconnectAttempts then
    s
  else if ok then
    { s with sockets := setSock s.sockets s.nextId ReadyState.CONNECTING,
             wsRef := some s.nextId,
             nextId := s.nextId + 1 }
  else
    s

/-- Delivery of the `open` event of socket `sid` (only a socket this manager
created carries its reactions): `ws.onopen` sets the connected flag and
resets the attempt counter; the transport marks the socket OPEN. -/
def deliverOpen (sid : Nat) (s : MgrState) : MgrState :=
  if s.sockets sid = none then s
  else
    { s with sockets := setSock s.sockets sid ReadyState.OPEN,
             isConnected := true,
             reconnectAttempts := 0 }

/-- Delivery of a `message` event of socket `sid` carrying `data`
(`some j` when `JSON.parse` yields `j`, `none` when it throws):
`ws.onmessage` invokes `messageHandlerRef.current` with the parsed value,
or logs and discards the frame on a parse failure. -/
def deliverMessage (sid : Nat) (data : Option Json) (s : MgrState) : MgrState :=
  if s.sockets sid = none then s
  else
    match data with
    | some j => { s with handlerCalls := s.handlerCalls ++ [(s.messageHandler, j)] }
    | none => s

/-- Delivery of an `error` event of socket `sid`: `ws.onerror` logs and calls
the optional caller error handler — both external effects; no manager state
is written. -/
def deliverError (_sid : Nat) (s : MgrState) : MgrState :=
  s

/-- Delivery of the `close` event of socket `sid` with close code `code`:
`ws.onclose` clears the flag and the reference; when the code is not 1000 it
additionally schedules a reconnect after
`min (1000 * 2 ^ reconnectAttempts) 10000` ms.  The transport marks the
socket CLOSED. -/
def deliverClose (sid code : Nat) (s : MgrState) : MgrState :=
  if s.sockets sid = none then s
  else
    if code ≠ 1000 then
      { s with sockets := setSock s.sockets sid ReadyState.CLOSED,
               isConnected := false,
               wsRef := none,
               reconnectTimeout := some (min (1000 * 2 ^ s.reconnectAttempts) 10000),
               delays := s.delays ++ [min (1000 * 2 ^ s.reconnectAttempts) 10000] }
    else
      { s with sockets := setSock s.sockets sid ReadyState.CLOSED,
               isConnected := false,
               wsRef := none }

/-- The pending reconnect timer fires: increment the attempt counter, then
call `connect` (see the module comment on the consumed handle). -/
def timerFire (ok : Bool) (s : MgrState) : MgrState :=
  match s.reconnectTimeout with
  | none => s
  | some _ =>
      connect ok { s with reconnectTimeout := none,
                          reconnectAttempts := s.reconnectAttempts + 1 }

/-- `reconnect`: `cleanup(); reconnectAttemptsRef.current = 0; connect();`. -/
def reconnect (ok : Bool) (s : MgrState) : MgrState :=
  connect ok { cleanup s with reconnectAttempts := 0 }

/-- The caller supplies a new message handler (the effect that keeps
`messageHandlerRef.current` up to date). -/
def setHandler (h : Nat) (s : MgrState) : MgrState :=
  { s with messageHandler := h }

/-- Everything that can happen to the manager: its operations, the events
the transport delivers, the timer firing, and a handler replacement. -/
inductive Action where
  | connect (ok : Bool)
  | reconnect (ok : Bool)
  | cleanup
  | deliverOpen (sid : Nat)
  | deliverMessage (sid : Nat) (data : Option Json)
  | deliverError (sid : Nat)
  | deliverClose (sid : Nat) (code : Nat)
  | timerFire (ok : Bool)
  | setHandler (h : Nat)

/-- One step of the manager. -/
def step (s : MgrState) : Action → MgrState
  | Action.connect ok => connect ok s
  | Action.reconnect ok => reconnect ok s
  | Action.cleanup => cleanup s
  | Action.deliverOpen sid => deliverOpen sid s
  | Action.deliverMessage sid data => deliverMessage sid data s
  | Action.deliverError sid => deliverError sid s
  | Action.deliverClose sid code => deliverClose sid code s
  | Action.timerFire ok => timerFire ok s
  | Action.setHandler h => setHandler h s

/-- Run a sequence of actions. -/
def run (s : MgrState) (acts : List Action) : MgrState :=
  acts.foldl step s

/-- The state of a freshly mounted manager, before the initial `connect`. -/
def initState : MgrState :=
  { isConnected := false
    wsRef := none
    sockets := fun _ => none
    reconnectTimeout := none
    reconnectAttempts := 0
    nextId := 0
    messageHandler := 0
    handlerCalls := []
    delays := [] }

/-! ## Helper lemmas -/

theorem connect_reconnectAttempts (ok : Bool) (s : MgrState) :
    (connect ok s).reconnectAttempts = s.reconnectAttempts := by
  unfold connect
  split
  · rfl
  · split
    · rfl
    · split <;> rfl

theorem connect_isConnected (ok : Bool) (s : MgrState) :
    (connect ok s).isConnected = s.isConnected := by
  unfold connect
  split
  · rfl
  · split
    · rfl
    · split <;> rfl

theorem connect_reconnectTimeout (ok : Bool) (s : MgrState) :
    (connect ok s).reconnectTimeout = s.reconnectTimeout := by
  unfold connect
  split
  · rfl
  · split
    · rfl
    · split <;> rfl

theorem cleanup_isConnected (s : MgrState) :
    (cleanup s).isConnected = s.isConnected := by
  unfold cleanup
  split <;> rfl

theorem cleanup_reconnectAttempts (s : MgrState) :
    (cleanup s).reconnectAttempts = s.reconnectAttempts := by
  unfold cleanup
  split <;> rfl

theorem cleanup_reconnectTimeout (s : MgrState) :
    (cleanup s).reconnectTimeout = none := by
  unfold cleanup
  split <;> rfl

theorem cleanup_wsRef (s : MgrState) :
    (cleanup s).wsRef = none := by
  unfold cleanup
  split
  · next h => rw [h]
  · rfl

theorem cleanup_nextId (s : MgrState) :
    (cleanup s).nextId = s.nextId := by
  unfold cleanup
  split <;> rfl

theorem timerFire_isConnected (ok : Bool) (s : MgrState) :
    (timerFire ok s).isConnected = s.isConnected := by
  unfold timerFire
  split
  · rfl
  · rw [connect_isConnected]

theorem reconnect_isConnected (ok : Bool) (s : MgrState) :
    (reconnect ok s).isConnected = s.isConnected := by
  unfold reconnect
  rw [connect_isConnected]
  exact cleanup_isConnected s

theorem deliverMessage_none (sid : Nat) (s : MgrState) :
    deliverMessage sid none s = s := by
  unfold deliverMessage
  split <;> rfl

theorem deliverMessage_some (s : MgrState) (sid : Nat) (j : Json)
    (hs : ¬ s.sockets sid = none) :
    deliverMessage sid (some j) s =
      { s with handlerCalls := s.handlerCalls ++ [(s.messageHandler, j)] } := by
  unfold deliverMessage
  rw [if_neg hs]

theorem deliverClose_normal (s : MgrState) (sid : Nat)
    (hs : ¬ s.sockets sid = none) :
    deliverClose sid 1000 s =
      { s with sockets := setSock s.sockets sid ReadyState.CLOSED,
               isConnected := false, wsRef := none } := by
  unfold deliverClose
  rw [if_neg hs, if_neg (by simp : ¬ ((1000 : Nat) ≠ 1000))]

theorem deliverClose_abnormal (s : MgrState) (sid code : Nat)
    (hs : ¬ s.sockets sid = none) (hc : code ≠ 1000) :
    deliverClose sid code s =
      { s with sockets := setSock s.sockets sid ReadyState.CLOSED,
               isConnected := false, wsRef := none,
               reconnectTimeout := some (min (1000 * 2 ^ s.reconnectAttempts) 10000),
               delays := s.delays ++ [min (1000 * 2 ^ s.reconnectAttempts) 10000] } := by
  unfold deliverClose
  rw [if_neg hs, if_pos hc]

theorem connect_capped (ok : Bool) (s : MgrState)
    (h : maxReconnectAttempts ≤ s.reconnectAttempts) :
    connect ok s = s := by
  unfold connect
  by_cases hrs : refReadyState s = some ReadyState.OPEN ∨
      refReadyState s = some ReadyState.CONNECTING
  · rw [if_pos hrs]
  · rw [if_neg hrs, if_pos h]

theorem connect_creates (s : MgrState)
    (h1 : ¬ (refReadyState s = some ReadyState.OPEN ∨
             refReadyState s = some ReadyState.CONNECTING))
    (h2 : s.reconnectAttempts < maxReconnectAttempts) :
    connect true s =
      { s with sockets := setSock s.sockets s.nextId ReadyState.CONNECTING,
               wsRef := some s.nextId, nextId := s.nextId + 1 } := by
  unfold connect
  rw [if_neg h1, if_neg (Nat.not_le.mpr h2), if_pos rfl]

theorem connect_fresh (t : MgrState) (hw : t.wsRef = none)
    (ha : t.reconnectAttempts < maxReconnectAttempts) :
    connect true t =
      { t with sockets := setSock t.sockets t.nextId ReadyState.CONNECTING,
               wsRef := some t.nextId, nextId := t.nextId + 1 } := by
  apply connect_creates
  · simp [refReadyState, hw]
  · exact ha

theorem cleanup_eq_of_some (s : MgrState) (sid : Nat) (h : s.wsRef = some sid) :
    cleanup s = { s with reconnectTimeout := none,
                         sockets := closeSock s.sockets sid,
                         wsRef := none } := by
  unfold cleanup
  rw [h]

/-- A concrete mid-life state used by the witnesses: the manager already
replaced socket 0 (now closing) by the live socket 1, has two prior
reconnect attempts on the counter and handler 7 installed. -/
def liveState : MgrState :=
  { isConnected := true
    wsRef := some 1
    sockets := fun n =>
      if n = 0 then some ReadyState.CLOSING
      else if n = 1 then some ReadyState.OPEN
      else none
    reconnectTimeout := none
    reconnectAttempts := 2
    nextId := 2
    messageHandler := 7
    handlerCalls := []
    delays := [] }

/-! ## Claims -/

/-- C8: when constructing the socket throws synchronously, the exception is
caught (`connect` still returns a state), no retry timer is scheduled and
the whole manager state — socket reference, attempt counter, connected
flag included — is unchanged. -/
theorem C8_ctor_throw_leaves_state_unchanged (s : MgrState) :
    connect false s = s := by
  unfold connect
  split
  · rfl
  · split
    · rfl
    · rfl

/-- C6: calling `connect` while the referenced socket is OPEN or CONNECTING
is a no-op: the state (hence also the socket table, so no second connection
object) is unchanged. -/
theorem C6_connect_noop_when_live (s : MgrState) (ok : Bool)
    (h : refReadyState s = some ReadyState.OPEN ∨
         refReadyState s = some ReadyState.CONNECTING) :
    connect ok s = s := by
  unfold connect
  rw [if_pos h]

/-- C6 witness: on the concrete state whose referenced socket 1 is OPEN,
`connect` changes nothing. -/
theorem C6_witness : connect true liveState = liveState :=
  C6_connect_noop_when_live liveState true (Or.inl rfl)

/-- C3: a delivered close event with code 1000 clears the connected flag and
the socket reference but never schedules a retry: the pending-timer slot and
the history of scheduled delays are untouched; a delay is scheduled only
when the code is not 1000. -/
theorem C3_normal_close_never_schedules (s : MgrState) (sid : Nat)
    (hs : ¬ s.sockets sid = none) :
    (deliverClose sid 1000 s).isConnected = false ∧
    (deliverClose sid 1000 s).wsRef = none ∧
    (deliverClose sid 1000 s).reconnectTimeout = s.reconnectTimeout ∧
    (deliverClose sid 1000 s).delays = s.delays ∧
    ∀ code : Nat, (deliverClose sid code s).delays ≠ s.delays → code ≠ 1000 := by
  rw [deliverClose_normal s sid hs]
  refine ⟨rfl, rfl, rfl, rfl, ?_⟩
  intro code hne hcode
  subst hcode
  exact hne (by rw [deliverClose_normal s sid hs])

/-- C3 witness: the concrete facts at `liveState`, socket 1, code 1000. -/
theorem C3_witness :
    (deliverClose 1 1000 liveState).isConnected = false ∧
    (deliverClose 1 1000 liveState).wsRef = none ∧
    (deliverClose 1 1000 liveState).reconnectTimeout = none ∧
    (deliverClose 1 1000 liveState).delays = [] := by
  have h := C3_normal_close_never_schedules liveState 1 (by decide)
  exact ⟨h.1, h.2.1, h.2.2.1, h.2.2.2.1⟩

/-- C9: the close reaction acts regardless of which socket the event came
from — a delivered close event of any socket this manager created clears
the connected flag and the socket reference, even when the reference
currently points at a different (newer, still live) socket. -/
theorem C9_close_reaction_clears_ref_of_any_socket (s : MgrState)
    (sid code : Nat) (hs : ¬ s.sockets sid = none) :
    (deliverClose sid code s).isConnected = false ∧
    (deliverClose sid code s).wsRef = none := by
  by_cases hc : code = 1000
  · subst hc
    rw [deliverClose_normal s sid hs]
    exact ⟨rfl, rfl⟩
  · rw [deliverClose_abnormal s sid code hs hc]
    exact ⟨rfl, rfl⟩

/-- C9 witness: in `liveState` the reference points at the newer socket 1,
yet the late normal close of the replaced socket 0 clears the flag and the
reference to socket 1. -/
theorem C9_witness :
    liveState.wsRef = some 1 ∧
    (deliverClose 0 1000 liveState).isConnected = false ∧
    (deliverClose 0 1000 liveState).wsRef = none :=
  ⟨rfl, (C9_close_reaction_clears_ref_of_any_socket liveState 0 1000 (by decide)).1,
    (C9_close_reaction_clears_ref_of_any_socket liveState 0 1000 (by decide)).2⟩

/-- C4 counterexample: the claim says a frame that is not parseable as the
structured message format never reaches the handler, but `ws.onmessage` only
runs `JSON.parse` and never validates the tagged union: the frame `3` is
valid JSON (`JSON.parse` yields `Json.num 3`) yet no `WebSocketMessage`,
and the handler is invoked with it. -/
theorem C4_counterexample :
    decodeWebSocketMessage (Json.num 3) = none ∧
    (deliverMessage 1 (some (Json.num 3)) liveState).handlerCalls =
      [(7, Json.num 3)] :=
  ⟨rfl, rfl⟩

/-- C4 (amended): a frame on which `JSON.parse` throws is logged and
discarded — the state, handler-call history included, is unchanged; a frame
`JSON.parse` accepts is passed to the current handler exactly once, with the
parsed value and with no validation against the structured format; in both
cases the connection is not closed and the status is unchanged. -/
theorem C4_parse_dispatch (s : MgrState) (sid : Nat)
    (hs : ¬ s.sockets sid = none) :
    deliverMessage sid none s = s ∧
    ∀ j : Json,
      (deliverMessage sid (some j) s).handlerCalls =
        s.handlerCalls ++ [(s.messageHandler, j)] ∧
      (deliverMessage sid (some j) s).isConnected = s.isConnected ∧
      (deliverMessage sid (some j) s).wsRef = s.wsRef ∧
      (deliverMessage sid (some j) s).sockets = s.sockets ∧
      (deliverMessage sid (some j) s).reconnectTimeout = s.reconnectTimeout := by
  refine ⟨deliverMessage_none sid s, ?_⟩
  intro j
  rw [deliverMessage_some s sid j hs]
  exact ⟨rfl, rfl, rfl, rfl, rfl⟩

/-- C4 witness: the concrete facts at `liveState`, socket 1. -/
theorem C4_witness :
    deliverMessage 1 none liveState = liveState ∧
    (deliverMessage 1 (some Json.null) liveState).handlerCalls =
      [(7, Json.null)] ∧
    (deliverMessage 1 (some Json.null) liveState).isConnected = true := by
  have h := C4_parse_dispatch liveState 1 (by decide)
  exact ⟨h.1, (h.2 Json.null).1, (h.2 Json.null).2.1⟩

/-- C2: a manual `reconnect` cancels any pending reconnect timer, closes and
clears the referenced socket, resets the attempt counter to 0 and — without
any backoff wait — immediately constructs exactly one fresh connection,
whatever the prior attempt count and timer were. -/
theorem C2_reconnect_manual_override (s : MgrState) :
    (∀ ok : Bool, (reconnect ok s).reconnectTimeout = none ∧
        (reconnect ok s).reconnectAttempts = 0) ∧
    (reconnect true s).wsRef = some s.nextId ∧
    (reconnect true s).sockets s.nextId = some ReadyState.CONNECTING ∧
    (reconnect true s).nextId = s.nextId + 1 ∧
    ∀ sid : Nat, s.wsRef = some sid → sid ≠ s.nextId →
      (reconnect true s).sockets sid = (s.sockets sid).map applyClose := by
  have hw : ({ cleanup s with reconnectAttempts := 0 } : MgrState).wsRef = none :=
    cleanup_wsRef s
  have hcr := connect_fresh { cleanup s with reconnectAttempts := 0 } hw
    (by simp [maxReconnectAttempts])
  refine ⟨?_, ?_, ?_, ?_, ?_⟩
  · intro ok
    constructor
    · show (connect ok { cleanup s with reconnectAttempts := 0 }).reconnectTimeout = none
      rw [connect_reconnectTimeout]
      exact cleanup_reconnectTimeout s
    · show (connect ok { cleanup s with reconnectAttempts := 0 }).reconnectAttempts = 0
      rw [connect_reconnectAttempts]
  · show (connect true { cleanup s with reconnectAttempts := 0 }).wsRef = some s.nextId
    rw [hcr]
    show some ({ cleanup s with reconnectAttempts := 0 } : MgrState).nextId = some s.nextId
    rw [show ({ cleanup s with reconnectAttempts := 0 } : MgrState).nextId = s.nextId from
      cleanup_nextId s]
  · show (connect true { cleanup s with reconnectAttempts := 0 }).sockets s.nextId =
      some ReadyState.CONNECTING
    rw [hcr]
    show setSock (cleanup s).sockets (cleanup s).nextId ReadyState.CONNECTING s.nextId =
      some ReadyState.CONNECTING
    rw [cleanup_nextId s]
    simp [setSock]
  · show (connect true { cleanup s with reconnectAttempts := 0 }).nextId = s.nextId + 1
    rw [hcr]
    show ({ cleanup s with reconnectAttempts := 0 } : MgrState).nextId + 1 = s.nextId + 1
    rw [show ({ cleanup s with reconnectAttempts := 0 } : MgrState).nextId = s.nextId from
      cleanup_nextId s]
  · intro sid hsid hne
    show (connect true { cleanup s with reconnectAttempts := 0 }).sockets sid =
      (s.sockets sid).map applyClose
    rw [hcr]
    show setSock (cleanup s).sockets (cleanup s).nextId ReadyState.CONNECTING sid =
      (s.sockets sid).map applyClose
    rw [cleanup_nextId s, cleanup_eq_of_some s sid hsid]
    show setSock (closeSock s.sockets sid) s.nextId ReadyState.CONNECTING sid =
      (s.sockets sid).map applyClose
    simp [setSock, closeSock, hne]

/-- C2 witness: on the concrete mid-life state (two prior attempts, live
socket 1), `reconnect` yields no timer, counter 0, a fresh socket 2 and the
old socket 1 closing. -/
theorem C2_witness :
    (reconnect true liveState).reconnectTimeout = none ∧
    (reconnect true liveState).reconnectAttempts = 0 ∧
    (reconnect true liveState).wsRef = some 2 ∧
    (reconnect true liveState).sockets 2 = some ReadyState.CONNECTING ∧
    (reconnect true liveState).sockets 1 = some ReadyState.CLOSING := by
  have h := C2_reconnect_manual_override liveState
  refine ⟨(h.1 true).1, (h.1 true).2, h.2.1, h.2.2.1, ?_⟩
  have h5 := h.2.2.2.2 1 rfl (by decide)
  rw [h5]
  rfl

/-- C7: each inbound delivery invokes the handler reference current at
dispatch time: after the caller replaces the handler between two
deliveries, the second delivery reaches only the new handler, and the
replacement itself neither tears down nor recreates any socket. -/
theorem C7_latest_handler_dispatch (s : MgrState) (sid : Nat)
    (j1 j2 : Json) (h2 : Nat) (hs : ¬ s.sockets sid = none) :
    (setHandler h2 (deliverMessage sid (some j1) s)).wsRef = s.wsRef ∧
    (setHandler h2 (deliverMessage sid (some j1) s)).sockets = s.sockets ∧
    (setHandler h2 (deliverMessage sid (some j1) s)).nextId = s.nextId ∧
    (deliverMessage sid (some j2)
        (setHandler h2 (deliverMessage sid (some j1) s))).handlerCalls =
      s.handlerCalls ++ [(s.messageHandler, j1), (h2, j2)] := by
  simp [deliverMessage, setHandler, hs]

/-- C7 witness: at `liveState` (handler 7), delivering the frame `"x"`,
swapping in handler 8 and delivering `null` reaches handler 7 then handler
8, with the socket table untouched by the swap. -/
theorem C7_witness :
    (setHandler 8 (deliverMessage 1 (some (Json.str "x")) liveState)).sockets =
      liveState.sockets ∧
    (deliverMessage 1 (some Json.null)
        (setHandler 8 (deliverMessage 1 (some (Json.str "x")) liveState))).handlerCalls =
      [(7, Json.str "x"), (8, Json.null)] := by
  have h := C7_latest_handler_dispatch liveState 1 (Json.str "x") Json.null 8 (by decide)
  exact ⟨h.2.1, h.2.2.2⟩

/-! ## Further helper lemmas for the action-indexed claims -/

theorem reconnect_reconnectAttempts (ok : Bool) (s : MgrState) :
    (reconnect ok s).reconnectAttempts = 0 := by
  unfold reconnect
  rw [connect_reconnectAttempts]

theorem deliverOpen_none (s : MgrState) (sid : Nat) (hs : s.sockets sid = none) :
    deliverOpen sid s = s := by
  unfold deliverOpen
  rw [if_pos hs]

theorem deliverOpen_mem (s : MgrState) (sid : Nat) (hs : ¬ s.sockets sid = none) :
    deliverOpen sid s =
      { s with sockets := setSock s.sockets sid ReadyState.OPEN,
               isConnected := true, reconnectAttempts := 0 } := by
  unfold deliverOpen
  rw [if_neg hs]

theorem deliverMessage_reconnectAttempts (sid : Nat) (data : Option Json)
    (s : MgrState) :
    (deliverMessage sid data s).reconnectAttempts = s.reconnectAttempts := by
  by_cases hs : s.sockets sid = none
  · unfold deliverMessage
    rw [if_pos hs]
  · cases data with
    | none => rw [deliverMessage_none]
    | some j => rw [deliverMessage_some s sid j hs]

theorem deliverMessage_isConnected (sid : Nat) (data : Option Json)
    (s : MgrState) :
    (deliverMessage sid data s).isConnected = s.isConnected := by
  by_cases hs : s.sockets sid = none
  · unfold deliverMessage
    rw [if_pos hs]
  · cases data with
    | none => rw [deliverMessage_none]
    | some j => rw [deliverMessage_some s sid j hs]

theorem deliverClose_reconnectAttempts (sid code : Nat) (s : MgrState) :
    (deliverClose sid code s).reconnectAttempts = s.reconnectAttempts := by
  by_cases hs : s.sockets sid = none
  · unfold deliverClose
    rw [if_pos hs]
  · by_cases hc : code = 1000
    · subst hc
      rw [deliverClose_normal s sid hs]
    · rw [deliverClose_abnormal s sid code hs hc]

theorem timerFire_none (ok : Bool) (s : MgrState) (h : s.reconnectTimeout = none) :
    timerFire ok s = s := by
  unfold timerFire
  rw [h]

theorem timerFire_reconnectAttempts (ok : Bool) (s : MgrState) :
    (timerFire ok s).reconnectAttempts = s.reconnectAttempts ∨
    (timerFire ok s).reconnectAttempts = s.reconnectAttempts + 1 := by
  cases h : s.reconnectTimeout with
  | none =>
      rw [timerFire_none ok s h]
      exact Or.inl rfl
  | some d =>
      right
      unfold timerFire
      rw [h]
      rw [connect_reconnectAttempts]

/-- C5: over every state and every possible action, the attempt counter is
reset to zero by a delivered open event and by a manual reconnect; any other
action leaves it unchanged except a firing reconnect timer, which increments
it by one; and it can newly become zero only through an open event or a
manual reconnect. -/
theorem C5_attempt_counter_invariant (s : MgrState) (a : Action) :
    ((∃ sid, a = Action.deliverOpen sid ∧ ¬ s.sockets sid = none) →
        (step s a).reconnectAttempts = 0) ∧
    ((∃ ok, a = Action.reconnect ok) → (step s a).reconnectAttempts = 0) ∧
    ((∀ sid, a ≠ Action.deliverOpen sid) → (∀ ok, a ≠ Action.reconnect ok) →
        (step s a).reconnectAttempts = s.reconnectAttempts ∨
        ((step s a).reconnectAttempts = s.reconnectAttempts + 1 ∧
          ∃ ok, a = Action.timerFire ok)) ∧
    ((step s a).reconnectAttempts = 0 →
        s.reconnectAttempts = 0 ∨ (∃ sid, a = Action.deliverOpen sid) ∨
        (∃ ok, a = Action.reconnect ok)) := by
  refine ⟨?_, ?_, ?_, ?_⟩
  · rintro ⟨sid, rfl, hs⟩
    show (deliverOpen sid s).reconnectAttempts = 0
    rw [deliverOpen_mem s sid hs]
  · rintro ⟨ok, rfl⟩
    exact reconnect_reconnectAttempts ok s
  · intro hno hnr
    cases a with
    | connect ok => exact Or.inl (connect_reconnectAttempts ok s)
    | reconnect ok => exact absurd rfl (hnr ok)
    | cleanup => exact Or.inl (cleanup_reconnectAttempts s)
    | deliverOpen sid => exact absurd rfl (hno sid)
    | deliverMessage sid data =>
        exact Or.inl (deliverMessage_reconnectAttempts sid data s)
    | deliverError sid => exact Or.inl rfl
    | deliverClose sid code =>
        exact Or.inl (deliverClose_reconnectAttempts sid code s)
    | timerFire ok =>
        rcases timerFire_reconnectAttempts ok s with h | h
        · exact Or.inl h
        · exact Or.inr ⟨h, ok, rfl⟩
    | setHandler h => exact Or.inl rfl
  · intro h0
    cases a with
    | connect ok =>
        left
        have h0' : (connect ok s).reconnectAttempts = 0 := h0
        rw [connect_reconnectAttempts] at h0'
        exact h0'
    | reconnect ok => exact Or.inr (Or.inr ⟨ok, rfl⟩)
    | cleanup =>
        left
        have h0' : (cleanup s).reconnectAttempts = 0 := h0
        rw [cleanup_reconnectAttempts] at h0'
        exact h0'
    | deliverOpen sid => exact Or.inr (Or.inl ⟨sid, rfl⟩)
    | deliverMessage sid data =>
        left
        have h0' : (deliverMessage sid data s).reconnectAttempts = 0 := h0
        rw [deliverMessage_reconnectAttempts] at h0'
        exact h0'
    | deliverError sid => exact Or.inl h0
    | deliverClose sid code =>
        left
        have h0' : (deliverClose sid code s).reconnectAttempts = 0 := h0
        rw [deliverClose_reconnectAttempts] at h0'
        exact h0'
    | timerFire ok =>
        rcases timerFire_reconnectAttempts ok s with h | h
        · left
          have h0' : (timerFire ok s).reconnectAttempts = 0 := h0
          rw [h] at h0'
          exact h0'
        · have h0' : (timerFire ok s).reconnectAttempts = 0 := h0
          rw [h] at h0'
          exact absurd h0' (Nat.succ_ne_zero _)
    | setHandler h => exact Or.inl h0

/-- C5 witness: at the concrete mid-life state (counter 2) a delivered open
event of socket 1 and a manual reconnect each reset the counter to 0, while
a normal close of socket 1 leaves it unchanged. -/
theorem C5_witness :
    (step liveState (Action.deliverOpen 1)).reconnectAttempts = 0 ∧
    (step liveState (Action.reconnect true)).reconnectAttempts = 0 ∧
    (step liveState (Action.deliverClose 1 1000)).reconnectAttempts = 2 := by
  refine ⟨?_, ?_, ?_⟩
  · exact (C5_attempt_counter_invariant liveState (Action.deliverOpen 1)).1
      ⟨1, rfl, by decide⟩
  · exact (C5_attempt_counter_invariant liveState (Action.reconnect true)).2.1
      ⟨true, rfl⟩
  · have h := (C5_attempt_counter_invariant liveState
      (Action.deliverClose 1 1000)).2.2.1
      (fun sid hh => Action.noConfusion hh)
      (fun ok hh => Action.noConfusion hh)
    rcases h with h | h
    · exact h
    · exact absurd h.2 (by rintro ⟨ok, hh⟩; exact Action.noConfusion hh)

/-- C10: `cleanup` never writes the connected flag (nor the attempt
counter): it only cancels the timer, starts a normal close of the referenced
socket and clears the reference; and the flag is written by no action other
than a delivered open or close event. -/
theorem C10_cleanup_never_writes_flag (s : MgrState) (a : Action) :
    (cleanup s).isConnected = s.isConnected ∧
    (cleanup s).reconnectAttempts = s.reconnectAttempts ∧
    (cleanup s).reconnectTimeout = none ∧
    (cleanup s).wsRef = none ∧
    (∀ sid, s.wsRef = some sid →
        (cleanup s).sockets sid = (s.sockets sid).map applyClose) ∧
    ((∀ sid, a ≠ Action.deliverOpen sid) →
     (∀ sid code, a ≠ Action.deliverClose sid code) →
        (step s a).isConnected = s.isConnected) := by
  refine ⟨cleanup_isConnected s, cleanup_reconnectAttempts s,
    cleanup_reconnectTimeout s, cleanup_wsRef s, ?_, ?_⟩
  · intro sid h
    rw [cleanup_eq_of_some s sid h]
    show closeSock s.sockets sid sid = (s.sockets sid).map applyClose
    simp [closeSock]
  · intro hno hnc
    cases a with
    | connect ok => exact connect_isConnected ok s
    | reconnect ok => exact reconnect_isConnected ok s
    | cleanup => exact cleanup_isConnected s
    | deliverOpen sid => exact absurd rfl (hno sid)
    | deliverMessage sid data => exact deliverMessage_isConnected sid data s
    | deliverError sid => rfl
    | deliverClose sid code => exact absurd rfl (hnc sid code)
    | timerFire ok => exact timerFire_isConnected ok s
    | setHandler h => rfl

/-- C10 witness: tearing down `liveState` (which is connected) keeps the
flag true and the counter at 2, clears timer and reference, and starts
closing socket 1; a handler swap also leaves the flag untouched. -/
theorem C10_witness :
    (cleanup liveState).isConnected = true ∧
    (cleanup liveState).reconnectAttempts = 2 ∧
    (cleanup liveState).reconnectTimeout = none ∧
    (cleanup liveState).wsRef = none ∧
    (cleanup liveState).sockets 1 = some ReadyState.CLOSING ∧
    (step liveState (Action.setHandler 9)).isConnected = true := by
  have h := C10_cleanup_never_writes_flag liveState (Action.setHandler 9)
  refine ⟨h.1, h.2.1, h.2.2.1, h.2.2.2.1, ?_, ?_⟩
  · have h5 := h.2.2.2.2.1 1 rfl
    rw [h5]
    rfl
  · exact h.2.2.2.2.2 (fun sid hh => Action.noConfusion hh)
      (fun sid code hh => Action.noConfusion hh)

/-- Five consecutive abnormal closures (code 1006) from a fresh mount, each
followed by the scheduled retry firing. -/
def c1Trace : List Action :=
  [Action.connect true, Action.deliverClose 0 1006, Action.timerFire true,
   Action.deliverClose 1 1006, Action.timerFire true,
   Action.deliverClose 2 1006, Action.timerFire true,
   Action.deliverClose 3 1006, Action.timerFire true,
   Action.deliverClose 4 1006, Action.timerFire true]

/-- C1: every abnormal close delivered with the counter at `a` schedules the
retry after `min (1000 * 2 ^ a) 10000` ms; once the counter has reached the
maximum, `connect` returns the state unchanged (no connection is created);
and along the concrete run of five consecutive abnormal closures from a
fresh mount the scheduled delays are exactly 1000, 2000, 4000, 8000, 10000
ms, the counter ends at 5, no timer is pending, only five sockets were ever
created and a further `connect` changes nothing — no 6th automatic retry. -/
theorem C1_backoff_schedule_and_cap :
    (∀ (s : MgrState) (sid code : Nat), ¬ s.sockets sid = none → code ≠ 1000 →
        (deliverClose sid code s).reconnectTimeout =
          some (min (1000 * 2 ^ s.reconnectAttempts) 10000)) ∧
    (∀ (ok : Bool) (s : MgrState), maxReconnectAttempts ≤ s.reconnectAttempts →
        connect ok s = s) ∧
    (run initState c1Trace).delays = [1000, 2000, 4000, 8000, 10000] ∧
    (run initState c1Trace).reconnectAttempts = 5 ∧
    (run initState c1Trace).reconnectTimeout = none ∧
    (run initState c1Trace).nextId = 5 ∧
    connect true (run initState c1Trace) = run initState c1Trace := by
  refine ⟨?_, connect_capped, ?_, ?_, ?_, ?_, ?_⟩
  · intro s sid code hs hc
    rw [deliverClose_abnormal s sid code hs hc]
  · rfl
  · rfl
  · rfl
  · rfl
  · exact connect_capped true (run initState c1Trace) (by decide)

/-- C1 witness: the schedule lemma applied at the concrete mid-life state
(counter 2) gives a 4000 ms delay, and the capped run refuses a further
connect. -/
theorem C1_witness :
    (deliverClose 1 1006 liveState).reconnectTimeout = some 4000 ∧
    connect true (run initState c1Trace) = run initState c1Trace :=
  ⟨(C1_backoff_schedule_and_cap.1 liveState 1 1006 (by decide)
      (by decide)).trans (by decide),
   C1_backoff_schedule_and_cap.2.2.2.2.2.2⟩

end WS
